import Mathlib

/-!
# Verification of the sol-staking-dapp instruction core

Shallow embedding of the Solana staking-pool program (`src/entrypoint.rs`,
`src/error.rs`, `src/instruction.rs`, `src/processor.rs`, `src/state.rs`).

Bytes are modelled as `Nat` values (real bytes are `< 256`; claims that need
the bound take it as a hypothesis).  Account data buffers are `List Nat`.
Fallible Rust paths return `Except ProgramError` / `Option`; the in-place
`RefCell` mutation of an account's data is modelled by threading the account
list: every handler returns the (possibly updated) account list together with
its `ProgramResult`, so "the stored bytes after a failed call" is a first-class
value.

Borsh (de)serialization of the fixed-layout types is embedded directly:
a 1-byte enum discriminant in declaration order, 8-byte little-endian `u64`
fields, 32 raw bytes for a `Pubkey`, 1 byte for a `bool`, and
`try_from_slice` failing unless the buffer is consumed exactly.
-/

/-- A Solana public key: 32 raw bytes (`solana_program::pubkey::Pubkey`).
Modelled as a byte list; well-formed keys have length 32. -/
abbrev Pubkey : Type := List Nat

deriving instance DecidableEq for Except

/-- Little-endian value of a byte list: `leToNat [b0, b1, ...] = b0 + 256*b1 + ...`. -/
def leToNat : List Nat → Nat
  | [] => 0
  | b :: rest => b + 256 * leToNat rest

/-- The 8 little-endian bytes of a `u64` value (Borsh encoding of `u64`). -/
def u64ToLe (n : Nat) : List Nat :=
  [n % 256, n / 256 % 256, n / 65536 % 256, n / 16777216 % 256,
   n / 4294967296 % 256, n / 1099511627776 % 256,
   n / 281474976710656 % 256, n / 72057594037927936 % 256]

/-- Borsh `bool` deserialization: byte 0 is `false`, byte 1 is `true`,
anything else is a deserialization error. -/
def boolFromByte : Nat → Option Bool
  | 0 => some false
  | 1 => some true
  | _ => none

/-- The errors a `ProgramResult` can carry on the paths this program exercises
(`solana_program::program_error::ProgramError`): the program's own
`Custom` codes, the Borsh I/O error produced by the blanket
`From<std::io::Error> for ProgramError` used by the `?` on `try_from_slice`,
and `NotEnoughAccountKeys` from `next_account_info`. -/
inductive ProgramError where
  | Custom : Nat → ProgramError
  | BorshIoError : ProgramError
  | NotEnoughAccountKeys : ProgramError
deriving DecidableEq, Repr

/-- `src/error.rs`: the program's custom error enum `StakingError`, in
declaration order. -/
inductive StakingError where
  | InvalidInstruction : StakingError
  | InvalidSigner : StakingError
  | InvalidOwner : StakingError
  | AccountInitialized : StakingError
deriving DecidableEq, Repr

/-- The numeric code of a `StakingError` (`err as u32`: the declaration index). -/
def StakingError.toCode : StakingError → Nat
  | .InvalidInstruction => 0
  | .InvalidSigner => 1
  | .InvalidOwner => 2
  | .AccountInitialized => 3

/-- `src/error.rs` `impl From<StakingError> for ProgramError`:
`ProgramError::Custom(err as u32)`. -/
def StakingError.toProgramError (e : StakingError) : ProgramError :=
  .Custom e.toCode

/-- `src/instruction.rs`: the instruction enum, in declaration order
(Borsh discriminants `Initialize = 0` … `Claim = 4`). -/
inductive Instruction where
  | Initialize : Nat → Instruction
  | CreateUser : Instruction
  | Stake : Nat → Instruction
  | Unstake : Nat → Instruction
  | Claim : Instruction
deriving DecidableEq, Repr

/-- Borsh serialization of `Instruction`: 1-byte discriminant in declaration
order, then the fixed-width little-endian payload (8 bytes for
`rewards_per_token` / `amount`, none for `CreateUser` / `Claim`). -/
def Instruction.serialize : Instruction → List Nat
  | .Initialize r => 0 :: u64ToLe r
  | .CreateUser => [1]
  | .Stake a => 2 :: u64ToLe a
  | .Unstake a => 3 :: u64ToLe a
  | .Claim => [4]

/-- Borsh `Instruction::try_from_slice`: reads the discriminant and the fixed
payload and fails unless the buffer is consumed exactly; an empty buffer,
an out-of-range discriminant, or a wrong payload length is an error
(`none`, surfaced by the caller as `ProgramError.BorshIoError`). -/
def Instruction.try_from_slice (bs : List Nat) : Option Instruction :=
  match bs with
  | 0 :: rest => if rest.length = 8 then some (.Initialize (leToNat rest)) else none
  | [1] => some .CreateUser
  | 2 :: rest => if rest.length = 8 then some (.Stake (leToNat rest)) else none
  | 3 :: rest => if rest.length = 8 then some (.Unstake (leToNat rest)) else none
  | [4] => some .Claim
  | _ => none

/-- `Instruction.isInitialize` is `true` exactly on the `Initialize` variant. -/
def Instruction.isInitialize : Instruction → Bool
  | .Initialize _ => true
  | _ => false

/-- Modelled from the spec: `src/state.rs` declares `PoolStorageAccount` with
only `pool_authority`, `total_staked`, `user_count` and `rewards_per_token`,
yet `src/processor.rs` reads `storage_data.is_initialized()` and assigns
`storage_data.is_initialized = true`; the `is_initialized` field and its
accessor exist nowhere in the sources.  They are modelled here from the
spec's record ("`is_initialized`: boolean lifecycle flag"; record encoding
ending in a 1-byte boolean), giving the record `processor.rs` actually
operates on. -/
structure PoolStorageAccount where
  pool_authority : Pubkey
  total_staked : Nat
  user_count : Nat
  rewards_per_token : Nat
  is_initialized : Bool
deriving DecidableEq, Repr

/-- Borsh serialization of the pool record: the 32 raw bytes of
`pool_authority`, then `total_staked`, `user_count`, `rewards_per_token`
as 8-byte little-endian `u64`s, then 1 byte for `is_initialized`. -/
def PoolStorageAccount.serialize (r : PoolStorageAccount) : List Nat :=
  r.pool_authority ++ (u64ToLe r.total_staked ++ (u64ToLe r.user_count ++
    (u64ToLe r.rewards_per_token ++ [if r.is_initialized then 1 else 0])))

/-- Borsh `PoolStorageAccount::try_from_slice`: 32 bytes of key, three
little-endian `u64`s, one `bool` byte, with the buffer consumed exactly
(length must be 57) and the `bool` byte restricted to 0 or 1. -/
def PoolStorageAccount.try_from_slice (bs : List Nat) : Option PoolStorageAccount :=
  if bs.length = 57 then
    let rest := bs.drop 32
    match boolFromByte ((rest.drop 24).headD 2) with
    | some b =>
        some ⟨bs.take 32, leToNat (rest.take 8), leToNat ((rest.drop 8).take 8),
              leToNat ((rest.drop 16).take 8), b⟩
    | none => none
  else none

/-- One account descriptor as the runtime hands it to the program
(`solana_program::account_info::AccountInfo`): its address, its signer flag,
its declared owner, and its mutable data buffer. -/
structure AccountInfo where
  key : Pubkey
  is_signer : Bool
  owner : Pubkey
  data : List Nat
deriving DecidableEq, Repr

instance : Inhabited AccountInfo := ⟨⟨default, false, default, []⟩⟩

/-- `solana_program::account_info::next_account_info`: the next account from
the iterator, or `ProgramError::NotEnoughAccountKeys` when exhausted. -/
def next_account_info (accounts : List AccountInfo) :
    Except ProgramError (AccountInfo × List AccountInfo) :=
  match accounts with
  | [] => .error .NotEnoughAccountKeys
  | a :: rest => .ok (a, rest)

/-- `src/processor.rs` `process_initialize_pool`, with the account-data
mutation made explicit: the result pairs the `ProgramResult` with the
account list after the call (only a successful serialize step changes it).
The serialize step writes the encoded record into the front of the storage
account's buffer (failing if the buffer is too short), exactly like
`storage_data.serialize(&mut &mut storage.data.borrow_mut()[..])`.
Note: the source names the re-initialization error
`StakingError::AlreadyInitialized`, an identifier `src/error.rs` does not
declare; the declared variant with that meaning is `AccountInitialized`. -/
def process_initialize_pool (program_id : Pubkey) (accounts : List AccountInfo)
    (rewards_per_token : Nat) : Except ProgramError Unit × List AccountInfo :=
  match next_account_info accounts with
  | .error e => (.error e, accounts)
  | .ok (signer, rest1) =>
    if signer.is_signer = false then
      (.error StakingError.InvalidSigner.toProgramError, accounts)
    else
      match next_account_info rest1 with
      | .error e => (.error e, accounts)
      | .ok (storage, _) =>
        if storage.owner ≠ program_id then
          (.error StakingError.InvalidOwner.toProgramError, accounts)
        else
          match PoolStorageAccount.try_from_slice storage.data with
          | none => (.error .BorshIoError, accounts)
          | some storage_data =>
            if storage_data.is_initialized then
              (.error StakingError.AccountInitialized.toProgramError, accounts)
            else
              let newRecord : PoolStorageAccount :=
                { pool_authority := signer.key, total_staked := 0, user_count := 0,
                  rewards_per_token := rewards_per_token, is_initialized := true }
              let bytes := newRecord.serialize
              if bytes.length ≤ storage.data.length then
                (.ok (),
                 accounts.set 1 { storage with data := bytes ++ storage.data.drop bytes.length })
              else
                (.error .BorshIoError, accounts)

/-- `src/processor.rs` `process`: decode the instruction bytes (a decode
failure propagates through `?` as a Borsh I/O `ProgramError`), dispatch
`Initialize` to its handler, and fail every other variant with
`StakingError::InvalidInstruction`. -/
def process (program_id : Pubkey) (accounts : List AccountInfo)
    (instruction_data : List Nat) : Except ProgramError Unit × List AccountInfo :=
  match Instruction.try_from_slice instruction_data with
  | none => (.error .BorshIoError, accounts)
  | some (.Initialize rewards_per_token) =>
      process_initialize_pool program_id accounts rewards_per_token
  | some _ => (.error StakingError.InvalidInstruction.toProgramError, accounts)

/-- The `PoolStorageAccount` struct exactly as `src/state.rs` lines 39–66
declare it: four fields, no `is_initialized`. -/
structure PoolStorageAccountDecl where
  pool_authority : Pubkey
  total_staked : Nat
  user_count : Nat
  rewards_per_token : Nat
deriving DecidableEq, Repr

/-- Borsh serialization of the struct as `src/state.rs` declares it:
32 key bytes and three little-endian `u64`s, 56 bytes, no flag byte. -/
def PoolStorageAccountDecl.serialize (r : PoolStorageAccountDecl) : List Nat :=
  r.pool_authority ++ (u64ToLe r.total_staked ++ (u64ToLe r.user_count ++
    u64ToLe r.rewards_per_token))

/-- A sample program id (32 bytes). -/
def pidW : Pubkey := List.replicate 32 9

/-- A sample authority key (32 bytes). -/
def keyW : Pubkey := List.replicate 32 1

/-- A second sample key (32 bytes). -/
def keyW2 : Pubkey := List.replicate 32 2

/-- A sample signing account. -/
def signerA : AccountInfo := ⟨keyW, true, List.replicate 32 0, []⟩

/-- A second sample signing account. -/
def signerB : AccountInfo := ⟨keyW2, true, List.replicate 32 0, []⟩

/-- A sample non-signing account. -/
def nonSignerW : AccountInfo := ⟨keyW, false, List.replicate 32 0, []⟩

/-- A sample program-owned storage account with zeroed 57-byte data. -/
def storageW : AccountInfo := ⟨keyW2, false, pidW, List.replicate 57 0⟩

/-- A sample storage account owned by a key other than the program id. -/
def badOwnerW : AccountInfo := ⟨keyW2, false, keyW, List.replicate 57 0⟩

/-- The record decoded from an all-zero 57-byte buffer. -/
def zeroRecord : PoolStorageAccount := ⟨List.replicate 32 0, 0, 0, 0, false⟩

/-- A sample initialized record used for round-trip evaluation. -/
def recW : PoolStorageAccount := ⟨keyW, 42, 7, 500, true⟩

-- Sanity examples (concrete evaluations of the embedding).
example : Instruction.try_from_slice [2, 10, 0, 0, 0, 0, 0, 0, 0] = some (.Stake 10) := by decide
example : Instruction.try_from_slice [] = none := by decide
example : Instruction.try_from_slice [7] = none := by decide
example :
    PoolStorageAccount.try_from_slice (List.replicate 57 0) =
      some ⟨List.replicate 32 0, 0, 0, 0, false⟩ := by decide

/-! ## Helper lemmas about the codec -/

/-- A `u64` always serializes to 8 bytes. -/
theorem u64ToLe_length (n : Nat) : (u64ToLe n).length = 8 := by
  simp [u64ToLe]

/-- Reading back the little-endian bytes of `n` yields `n` modulo `2^64`. -/
theorem leToNat_u64ToLe (n : Nat) :
    leToNat (u64ToLe n) = n % 18446744073709551616 := by
  simp only [u64ToLe, leToNat]
  omega

/-- A record serializes to 57 bytes when its key is well-formed. -/
theorem serialize_length (r : PoolStorageAccount)
    (hk : r.pool_authority.length = 32) :
    r.serialize.length = 57 := by
  simp [PoolStorageAccount.serialize, u64ToLe, hk]

/-- Record decode only succeeds on buffers of exactly 57 bytes. -/
theorem try_from_slice_length (bs : List Nat) (r : PoolStorageAccount)
    (h : PoolStorageAccount.try_from_slice bs = some r) : bs.length = 57 := by
  by_cases hl : bs.length = 57
  · exact hl
  · simp [PoolStorageAccount.try_from_slice, hl] at h

/-- Decoding a serialized record recovers it, with the `u64` fields reduced
modulo `2^64` (they are untouched when they fit in a `u64`). -/
theorem try_from_slice_serialize (r : PoolStorageAccount)
    (hk : r.pool_authority.length = 32) :
    PoolStorageAccount.try_from_slice r.serialize =
      some ⟨r.pool_authority, r.total_staked % 18446744073709551616,
            r.user_count % 18446744073709551616,
            r.rewards_per_token % 18446744073709551616, r.is_initialized⟩ := by
  have hlen : r.serialize.length = 57 := serialize_length r hk
  have hdrop : r.serialize.drop 32 =
      u64ToLe r.total_staked ++ (u64ToLe r.user_count ++ (u64ToLe r.rewards_per_token ++
        [if r.is_initialized then 1 else 0])) := by
    simp only [PoolStorageAccount.serialize]
    exact List.drop_left' hk
  have htake : r.serialize.take 32 = r.pool_authority := by
    simp only [PoolStorageAccount.serialize]
    exact List.take_left' hk
  unfold PoolStorageAccount.try_from_slice
  rw [if_pos hlen, hdrop, htake]
  cases hb : r.is_initialized <;>
    simp [u64ToLe, leToNat, boolFromByte] <;> omega

/-- Decoding a serialized `Initialize` instruction recovers it (rate modulo `2^64`). -/
theorem instr_decode_init_eq (n : Nat) :
    Instruction.try_from_slice (Instruction.serialize (.Initialize n)) =
      some (.Initialize (n % 18446744073709551616)) := by
  simp [Instruction.serialize, Instruction.try_from_slice, u64ToLe_length, leToNat_u64ToLe]

/-- The successful `Initialize` path: a signing first account, a program-owned
second account whose data decodes to an uninitialized record, and a
well-formed signer key make the handler overwrite the storage data with the
freshly encoded record and return `Ok(())`. -/
theorem process_initialize_pool_success (pid : Pubkey) (a0 a1 : AccountInfo)
    (rest : List AccountInfo) (r : PoolStorageAccount) (rpt : Nat)
    (h0 : a0.is_signer = true) (h1 : a1.owner = pid) (hk : a0.key.length = 32)
    (hd : PoolStorageAccount.try_from_slice a1.data = some r)
    (hi : r.is_initialized = false) :
    process_initialize_pool pid (a0 :: a1 :: rest) rpt =
      (.ok (),
       a0 :: { a1 with data := PoolStorageAccount.serialize ⟨a0.key, 0, 0, rpt, true⟩ } :: rest) := by
  have hlen : a1.data.length = 57 := try_from_slice_length _ _ hd
  have hslen : (PoolStorageAccount.serialize ⟨a0.key, 0, 0, rpt, true⟩).length = 57 :=
    serialize_length _ hk
  have hdropnil : a1.data.drop 57 = [] := by
    apply List.drop_eq_nil_of_le
    omega
  unfold process_initialize_pool next_account_info
  simp [h0, h1, hd, hi, hslen, hlen, hdropnil, List.set]

/-- Every failing path of the `Initialize` handler leaves the account list
untouched: the serialize-and-overwrite step is the only mutation point. -/
theorem process_initialize_pool_error_preserves (pid : Pubkey)
    (accounts : List AccountInfo) (rpt : Nat) :
    (process_initialize_pool pid accounts rpt).1 = .ok () ∨
    (process_initialize_pool pid accounts rpt).2 = accounts := by
  unfold process_initialize_pool next_account_info
  rcases accounts with _ | ⟨a0, _ | ⟨a1, rest⟩⟩ <;> simp
  · by_cases h0 : a0.is_signer = false <;> simp [h0]
  · by_cases h0 : a0.is_signer = false <;> simp [h0]
    by_cases h1 : a1.owner = pid <;> simp [h1]
    cases hd : PoolStorageAccount.try_from_slice a1.data with
    | none => simp
    | some r =>
      by_cases hi : r.is_initialized <;> simp [hi]
      by_cases hw : (PoolStorageAccount.serialize ⟨a0.key, 0, 0, rpt, true⟩).length ≤ a1.data.length <;>
        simp [hw]

/-! ## Claim theorems -/

/-- Claim C10: every `StakingError` variant converts to `ProgramError::Custom`
with its declaration index: `InvalidInstruction ↦ Custom 0`,
`InvalidSigner ↦ Custom 1`, `InvalidOwner ↦ Custom 2`,
`AccountInitialized ↦ Custom 3`. -/
theorem C10_error_codes :
    StakingError.InvalidInstruction.toProgramError = .Custom 0 ∧
    StakingError.InvalidSigner.toProgramError = .Custom 1 ∧
    StakingError.InvalidOwner.toProgramError = .Custom 2 ∧
    StakingError.AccountInitialized.toProgramError = .Custom 3 := by
  decide

/-- Claim C7 (code evaluation): the `PoolStorageAccount` struct exactly as
`src/state.rs` declares it has no `is_initialized` field, so its Borsh
encoding is 56 bytes — not the 57-byte layout, ending in a 1-byte boolean,
that the spec describes and that `src/processor.rs` (which reads and writes
`is_initialized` on this very struct) requires. -/
theorem C7_state_rs_record_encoding :
    (PoolStorageAccountDecl.serialize ⟨List.replicate 32 0, 0, 0, 500⟩).length = 56 ∧
    (PoolStorageAccount.serialize ⟨List.replicate 32 0, 0, 0, 500, true⟩).length = 57 ∧
    PoolStorageAccount.serialize ⟨List.replicate 32 0, 0, 0, 500, true⟩ =
      List.replicate 32 0 ++ (u64ToLe 0 ++ (u64ToLe 0 ++ (u64ToLe 500 ++ [1]))) := by
  refine ⟨by decide, by decide, rfl⟩

/-- Claim C9 (counterexample): with a single, non-signing account the handler
fails with `InvalidSigner`, not with `NotEnoughAccountKeys` — the signer
check on account `[0]` runs before the second `next_account_info` call. -/
theorem C9_counterexample :
    process_initialize_pool pidW [nonSignerW] 5 =
      (.error StakingError.InvalidSigner.toProgramError, [nonSignerW]) ∧
    StakingError.InvalidSigner.toProgramError ≠ ProgramError.NotEnoughAccountKeys := by
  decide

/-- Claim C9 (amended): with fewer than two accounts the handler fails before
any account data is read or written — with `NotEnoughAccountKeys` when the
list is empty or its single account is a signer, and with `InvalidSigner`
when its single account is not a signer; in all cases the account list is
unchanged. -/
theorem C9_short_account_list (pid : Pubkey) (a : AccountInfo) (rpt : Nat) :
    process_initialize_pool pid [] rpt = (.error .NotEnoughAccountKeys, []) ∧
    (a.is_signer = true →
      process_initialize_pool pid [a] rpt = (.error .NotEnoughAccountKeys, [a])) ∧
    (a.is_signer = false →
      process_initialize_pool pid [a] rpt =
        (.error StakingError.InvalidSigner.toProgramError, [a])) := by
  refine ⟨rfl, ?_, ?_⟩ <;> intro h <;>
    simp [process_initialize_pool, next_account_info, h]

/-- Claim C9 (witness): the amended statement applied to the sample accounts. -/
theorem C9_short_account_list_witness :
    process_initialize_pool pidW [] 5 = (.error .NotEnoughAccountKeys, []) ∧
    (signerA.is_signer = true ∧
      process_initialize_pool pidW [signerA] 5 = (.error .NotEnoughAccountKeys, [signerA])) ∧
    (nonSignerW.is_signer = false ∧
      process_initialize_pool pidW [nonSignerW] 5 =
        (.error StakingError.InvalidSigner.toProgramError, [nonSignerW])) :=
  ⟨(C9_short_account_list pidW signerA 5).1,
   ⟨rfl, (C9_short_account_list pidW signerA 5).2.1 rfl⟩,
   ⟨rfl, (C9_short_account_list pidW nonSignerW 5).2.2 rfl⟩⟩

/-- Claim C3: with at least two accounts, `Initialize` fails with
`InvalidSigner` whenever account `[0]` is not a signer — regardless of the
storage account's content or owner — and with `InvalidOwner` whenever
account `[0]` is a signer but account `[1]`'s owner differs from the program
id; the signer check short-circuits the owner check. -/
theorem C3_signer_then_owner (pid : Pubkey) (a0 a1 : AccountInfo)
    (rest : List AccountInfo) (rpt : Nat) :
    (a0.is_signer = false →
      process pid (a0 :: a1 :: rest) (Instruction.serialize (.Initialize rpt)) =
        (.error StakingError.InvalidSigner.toProgramError, a0 :: a1 :: rest)) ∧
    (a0.is_signer = true → a1.owner ≠ pid →
      process pid (a0 :: a1 :: rest) (Instruction.serialize (.Initialize rpt)) =
        (.error StakingError.InvalidOwner.toProgramError, a0 :: a1 :: rest)) := by
  constructor
  · intro h0
    unfold process
    rw [instr_decode_init_eq]
    unfold process_initialize_pool next_account_info
    simp [h0]
  · intro h0 h1
    unfold process
    rw [instr_decode_init_eq]
    unfold process_initialize_pool next_account_info
    simp [h0, h1]

/-- Claim C3 (witness): the two branches applied to sample account lists. -/
theorem C3_signer_then_owner_witness :
    (nonSignerW.is_signer = false ∧
      process pidW [nonSignerW, storageW] (Instruction.serialize (.Initialize 5)) =
        (.error StakingError.InvalidSigner.toProgramError, [nonSignerW, storageW])) ∧
    (signerA.is_signer = true ∧ badOwnerW.owner ≠ pidW ∧
      process pidW [signerA, badOwnerW] (Instruction.serialize (.Initialize 5)) =
        (.error StakingError.InvalidOwner.toProgramError, [signerA, badOwnerW])) :=
  ⟨⟨rfl, (C3_signer_then_owner pidW nonSignerW storageW [] 5).1 rfl⟩,
   ⟨rfl, by decide, (C3_signer_then_owner pidW signerA badOwnerW [] 5).2 rfl (by decide)⟩⟩

/-- Claim C5: whenever the instruction bytes decode to a variant other than
`Initialize` (`CreateUser`, `Stake`, `Unstake` or `Claim`), `process` fails
with `InvalidInstruction` and the accounts — in particular the storage
account's bytes — are unchanged. -/
theorem C5_unimplemented_variants (pid : Pubkey) (accounts : List AccountInfo)
    (bytes : List Nat) (i : Instruction)
    (hd : Instruction.try_from_slice bytes = some i)
    (hni : i.isInitialize = false) :
    process pid accounts bytes =
      (.error StakingError.InvalidInstruction.toProgramError, accounts) := by
  unfold process
  rw [hd]
  cases i <;> simp [Instruction.isInitialize] at hni ⊢

/-- Claim C5 (witness): the spec's concrete scenario, `Stake{amount: 10}`. -/
theorem C5_unimplemented_variants_witness :
    Instruction.try_from_slice (Instruction.serialize (.Stake 10)) = some (.Stake 10) ∧
    (Instruction.Stake 10).isInitialize = false ∧
    process pidW [signerA, storageW] (Instruction.serialize (.Stake 10)) =
      (.error StakingError.InvalidInstruction.toProgramError, [signerA, storageW]) :=
  ⟨by decide, rfl,
   C5_unimplemented_variants pidW [signerA, storageW] _ (.Stake 10) (by decide) rfl⟩

/-- Claim C2: on every input, either `process` succeeds or it leaves the
account list — and hence the storage account's bytes — exactly as they were:
the encode-and-overwrite in the `Initialize` handler is the only mutation
point and runs only after every check has passed. -/
theorem C2_no_mutation_on_error (pid : Pubkey) (accounts : List AccountInfo)
    (bytes : List Nat) :
    (process pid accounts bytes).1 = .ok () ∨
    (process pid accounts bytes).2 = accounts := by
  unfold process
  cases hd : Instruction.try_from_slice bytes with
  | none => simp
  | some i =>
    cases i with
    | Initialize rpt => exact process_initialize_pool_error_preserves pid accounts rpt
    | CreateUser => simp
    | Stake a => simp
    | Unstake a => simp
    | Claim => simp

/-- Claim C6 (counterexample): on the byte string `[7]` — an out-of-range
discriminant — `process` fails with the Borsh I/O error propagated by `?`
from `Instruction::try_from_slice`, which is not
`StakingError::InvalidInstruction` (`Custom 0`). -/
theorem C6_decode_failure_counterexample :
    process pidW [signerA, storageW] [7] =
      (.error .BorshIoError, [signerA, storageW]) ∧
    ProgramError.BorshIoError ≠ StakingError.InvalidInstruction.toProgramError := by
  decide

/-- Claim C6 (amended): for every byte string shorter than the minimum encoded
instruction length (i.e. empty) or whose leading discriminant byte is
outside the known range 0–4, instruction decode — and hence `process` —
fails with the Borsh deserialization error (`ProgramError::BorshIoError`),
not `StakingError::InvalidInstruction`, and the accounts are unchanged. -/
theorem C6_decode_failure_is_borsh_io (pid : Pubkey) (accounts : List AccountInfo)
    (bytes : List Nat) (h : bytes = [] ∨ 4 < bytes.headD 0) :
    process pid accounts bytes = (.error .BorshIoError, accounts) := by
  have hd : Instruction.try_from_slice bytes = none := by
    cases bytes with
    | nil => rfl
    | cons b rest =>
      have hb : 4 < b := by
        rcases h with h | h
        · exact absurd h (by simp)
        · simpa using h
      obtain ⟨m, rfl⟩ : ∃ m, b = m + 5 := ⟨b - 5, by omega⟩
      rfl
  unfold process
  rw [hd]

/-- Claim C6 (witness for the amended statement): the discriminant 9. -/
theorem C6_decode_failure_is_borsh_io_witness :
    (([9] : List Nat) = [] ∨ 4 < ([9] : List Nat).headD 0) ∧
    process pidW [signerA, storageW] [9] =
      (.error .BorshIoError, [signerA, storageW]) :=
  ⟨Or.inr (by decide),
   C6_decode_failure_is_borsh_io pidW [signerA, storageW] [9] (Or.inr (by decide))⟩

/-- Claim C4: on a storage account holding all-zero bytes (the 57-byte zeroed
buffer the provisioning step creates), with a signing first account of
identity `A` and a program-owned second account, `Initialize` with
`rewards_per_token = 500` succeeds and the stored bytes decode to
`{pool_authority: A, total_staked: 0, user_count: 0, rewards_per_token: 500,
is_initialized: true}`. -/
theorem C4_initialize_zeroed_storage (pid : Pubkey) (a0 a1 : AccountInfo)
    (rest : List AccountInfo)
    (h0 : a0.is_signer = true) (hk : a0.key.length = 32)
    (h1 : a1.owner = pid) (hz : a1.data = List.replicate 57 0) :
    process pid (a0 :: a1 :: rest) (Instruction.serialize (.Initialize 500)) =
      (.ok (),
       a0 :: { a1 with data := PoolStorageAccount.serialize ⟨a0.key, 0, 0, 500, true⟩ } :: rest) ∧
    PoolStorageAccount.try_from_slice (PoolStorageAccount.serialize ⟨a0.key, 0, 0, 500, true⟩) =
      some ⟨a0.key, 0, 0, 500, true⟩ := by
  constructor
  · unfold process
    rw [instr_decode_init_eq]
    have h500 : (500 : Nat) % 18446744073709551616 = 500 := by norm_num
    rw [h500]
    refine process_initialize_pool_success pid a0 a1 rest
      ⟨List.replicate 32 0, 0, 0, 0, false⟩ 500 h0 h1 hk ?_ rfl
    rw [hz]
    decide
  · have h := try_from_slice_serialize ⟨a0.key, 0, 0, 500, true⟩ hk
    simpa using h

/-- Claim C4 (witness): the scenario at the sample accounts. -/
theorem C4_initialize_zeroed_storage_witness :
    signerA.is_signer = true ∧ signerA.key.length = 32 ∧
    storageW.owner = pidW ∧ storageW.data = List.replicate 57 0 ∧
    (process pidW [signerA, storageW] (Instruction.serialize (.Initialize 500)) =
       (.ok (),
        [signerA,
         { storageW with data := PoolStorageAccount.serialize ⟨signerA.key, 0, 0, 500, true⟩ }]) ∧
     PoolStorageAccount.try_from_slice
         (PoolStorageAccount.serialize ⟨signerA.key, 0, 0, 500, true⟩) =
       some ⟨signerA.key, 0, 0, 500, true⟩) :=
  ⟨rfl, by decide, rfl, rfl,
   C4_initialize_zeroed_storage pidW signerA storageW [] rfl (by decide) rfl rfl⟩

/-- Claim C8: decoding the serialization of any well-formed record (32-byte
key, `u64`-ranged numeric fields) yields the record back — the
encode/decode round-trip is the identity. -/
theorem C8_roundtrip (r : PoolStorageAccount)
    (hk : r.pool_authority.length = 32)
    (h1 : r.total_staked < 18446744073709551616)
    (h2 : r.user_count < 18446744073709551616)
    (h3 : r.rewards_per_token < 18446744073709551616) :
    PoolStorageAccount.try_from_slice r.serialize = some r := by
  rw [try_from_slice_serialize r hk]
  cases r with
  | mk pk ts uc rpt init => simp_all [Nat.mod_eq_of_lt]

/-- Claim C8 (witness): the round-trip at a concrete initialized record. -/
theorem C8_roundtrip_witness :
    recW.pool_authority.length = 32 ∧
    recW.total_staked < 18446744073709551616 ∧
    recW.user_count < 18446744073709551616 ∧
    recW.rewards_per_token < 18446744073709551616 ∧
    PoolStorageAccount.try_from_slice recW.serialize = some recW :=
  ⟨by decide, by decide, by decide, by decide,
   C8_roundtrip recW (by decide) (by decide) (by decide) (by decide)⟩

/-- Claim C1: against a program-owned storage account whose record is not yet
initialized, a first `Initialize` (signer `a0`, rate `rpt1`) succeeds and
overwrites the stored bytes with the new record; a second `Initialize`
against the resulting storage — with any signer `b0` and any rate `rpt2` —
fails with `AccountInitialized` and leaves the stored bytes exactly as the
first call left them. -/
theorem C1_reinitialize_rejected (pid : Pubkey) (a0 a1 b0 : AccountInfo)
    (rest rest2 : List AccountInfo) (r : PoolStorageAccount) (rpt1 rpt2 : Nat)
    (h0 : a0.is_signer = true) (h1 : a1.owner = pid) (hk : a0.key.length = 32)
    (hr1 : rpt1 < 18446744073709551616)
    (hd : PoolStorageAccount.try_from_slice a1.data = some r)
    (hi : r.is_initialized = false) (hb : b0.is_signer = true) :
    process pid (a0 :: a1 :: rest) (Instruction.serialize (.Initialize rpt1)) =
      (.ok (),
       a0 :: { a1 with data := PoolStorageAccount.serialize ⟨a0.key, 0, 0, rpt1, true⟩ } :: rest) ∧
    process pid
        (b0 :: { a1 with data := PoolStorageAccount.serialize ⟨a0.key, 0, 0, rpt1, true⟩ } :: rest2)
        (Instruction.serialize (.Initialize rpt2)) =
      (.error StakingError.AccountInitialized.toProgramError,
       b0 :: { a1 with data := PoolStorageAccount.serialize ⟨a0.key, 0, 0, rpt1, true⟩ } :: rest2) := by
  constructor
  · unfold process
    rw [instr_decode_init_eq, Nat.mod_eq_of_lt hr1]
    exact process_initialize_pool_success pid a0 a1 rest r rpt1 h0 h1 hk hd hi
  · unfold process
    rw [instr_decode_init_eq]
    have hd2 : PoolStorageAccount.try_from_slice
        (PoolStorageAccount.serialize ⟨a0.key, 0, 0, rpt1, true⟩) =
        some ⟨a0.key, 0, 0, rpt1 % 18446744073709551616, true⟩ := by
      have h := try_from_slice_serialize ⟨a0.key, 0, 0, rpt1, true⟩ hk
      simpa using h
    unfold process_initialize_pool next_account_info
    simp [hb, h1, hd2]

/-- Claim C1 (witness): zeroed storage, first signer `signerA` with rate 500,
second signer `signerB` with rate 999. -/
theorem C1_reinitialize_rejected_witness :
    signerA.is_signer = true ∧ storageW.owner = pidW ∧ signerA.key.length = 32 ∧
    (500 : Nat) < 18446744073709551616 ∧
    PoolStorageAccount.try_from_slice storageW.data = some zeroRecord ∧
    zeroRecord.is_initialized = false ∧ signerB.is_signer = true ∧
    (process pidW [signerA, storageW] (Instruction.serialize (.Initialize 500)) =
       (.ok (),
        [signerA,
         { storageW with data := PoolStorageAccount.serialize ⟨signerA.key, 0, 0, 500, true⟩ }]) ∧
     process pidW
         [signerB,
          { storageW with data := PoolStorageAccount.serialize ⟨signerA.key, 0, 0, 500, true⟩ }]
         (Instruction.serialize (.Initialize 999)) =
       (.error StakingError.AccountInitialized.toProgramError,
        [signerB,
         { storageW with data := PoolStorageAccount.serialize ⟨signerA.key, 0, 0, 500, true⟩ }])) :=
  ⟨rfl, rfl, by decide, by decide, by decide, rfl, rfl,
   C1_reinitialize_rejected pidW signerA storageW signerB [] [] zeroRecord 500 999
     rfl rfl (by decide) (by decide) (by decide) rfl rfl⟩
